import Mathlib

/-!
Shallow embedding of the calculation core of `src/real_estate_analyzer.py`
(the three pure calculator functions plus the breakeven helper), with
theorems settling the specification claims about them.

Monetary amounts are modelled as exact rationals (`ℚ`); the Python decimal
literals `0.03`, `0.02`, `0.0011`, `0.01`, `0.04` are embedded as the
rationals `3/100`, `2/100`, `11/10000`, `1/100`, `4/100`. Python's
`ZeroDivisionError` in `calculate_flip_profit` is modelled by returning
`Except CalcError` with `CalcError.divisionByZero`.
-/

/-- Result record of `calculate_seller_net` (the Python dict's keys become
structure fields). -/
structure SellerNetResult where
  price : ℚ
  listing_agent : ℚ
  buyer_agent : ℚ
  prep_costs : ℚ
  holding_costs : ℚ
  transaction_costs : ℚ
  total_costs : ℚ
  net : ℚ
deriving DecidableEq, Repr

/-- Embedding of `calculate_seller_net(price, is_mls=True)`
(src/real_estate_analyzer.py lines 15-42). -/
def calculate_seller_net (price : ℚ) (is_mls : Bool := true) : SellerNetResult :=
  let listing_agent := price * (3/100)
  let buyer_agent := if is_mls then price * (2/100) else 0
  let prep_costs : ℚ := if is_mls then 8000 + 6000 + 1500 + 5000 + 3000 + 1000 else 0
  let holding_costs : ℚ := if is_mls then 2000 + 600 + 333 else 0
  let transfer_tax := price * (11/10000)
  let escrow_fees : ℚ := 1500
  let total_costs := listing_agent + buyer_agent + prep_costs + holding_costs
    + transfer_tax + escrow_fees
  let net := price - total_costs
  { price := price
    listing_agent := listing_agent
    buyer_agent := buyer_agent
    prep_costs := prep_costs
    holding_costs := holding_costs
    transaction_costs := transfer_tax + escrow_fees
    total_costs := total_costs
    net := net }

/-- Result record of `calculate_buyer_costs`. -/
structure BuyerCostResult where
  purchase_price : ℚ
  down_payment : ℚ
  loan_amount : ℚ
  closing_costs : ℚ
  seller_agent : ℚ
  cash_to_acquire : ℚ
  interest : ℚ
  holding_costs : ℚ
  remodel_cost : ℚ
  total_cash : ℚ
deriving DecidableEq, Repr

/-- Embedding of `calculate_buyer_costs(purchase_price, down_pct,
interest_rate, remodel_cost, months=4)` (src/real_estate_analyzer.py
lines 44-79). -/
def calculate_buyer_costs (purchase_price down_pct interest_rate remodel_cost : ℚ)
    (months : ℚ := 4) : BuyerCostResult :=
  let down_payment := purchase_price * (down_pct / 100)
  let loan_amount := purchase_price * (1 - down_pct / 100)
  let loan_origination := loan_amount * (1/100)
  let closing_costs := loan_origination + 600 + 500 + 1500 + 1500 + 200
  let seller_agent := purchase_price * (3/100)
  let cash_to_acquire := down_payment + closing_costs + seller_agent
  let monthly_interest := (loan_amount * (interest_rate / 100)) / 12
  let total_interest := monthly_interest * months
  let monthly_holding : ℚ := 1000 + 300 + 167
  let holding_costs := total_interest + (monthly_holding * months)
  let total_cash := cash_to_acquire + holding_costs + remodel_cost
  { purchase_price := purchase_price
    down_payment := down_payment
    loan_amount := loan_amount
    closing_costs := closing_costs
    seller_agent := seller_agent
    cash_to_acquire := cash_to_acquire
    interest := total_interest
    holding_costs := holding_costs
    remodel_cost := remodel_cost
    total_cash := total_cash }

/-- Result record of `calculate_flip_profit`. -/
structure FlipProfitResult where
  sell_price : ℚ
  commission : ℚ
  transfer_fees : ℚ
  net_proceeds : ℚ
  profit : ℚ
  roi : ℚ
deriving DecidableEq, Repr

/-- Error conditions of the calculation core. Python raises
`ZeroDivisionError` when `calculate_flip_profit` divides by a zero
`total_cash`; the embedding surfaces it as this value. -/
inductive CalcError where
  | divisionByZero
deriving DecidableEq, Repr

/-- Embedding of `calculate_flip_profit(buy_costs, sell_price)`
(src/real_estate_analyzer.py lines 81-97). The division
`profit / buy_costs['total_cash']` raises in Python when the denominator
is zero, so the embedding returns `Except CalcError`. -/
def calculate_flip_profit (buy_costs : BuyerCostResult) (sell_price : ℚ) :
    Except CalcError FlipProfitResult :=
  let commission_4pct := sell_price * (4/100)
  let transfer_fees := (sell_price * (11/10000)) + 3000
  let net_proceeds := sell_price - commission_4pct - transfer_fees - buy_costs.loan_amount
  let profit := net_proceeds - buy_costs.total_cash
  if buy_costs.total_cash = 0 then
    Except.error CalcError.divisionByZero
  else
    let roi := (profit / buy_costs.total_cash) * 100
    Except.ok
      { sell_price := sell_price
        commission := commission_4pct
        transfer_fees := transfer_fees
        net_proceeds := net_proceeds
        profit := profit
        roi := roi }

/-- Embedding of the breakeven computation (src/real_estate_analyzer.py
lines 323-325). -/
def breakeven_price (buy_costs : BuyerCostResult) : ℚ :=
  let total_all_in := buy_costs.total_cash + buy_costs.loan_amount
  let selling_percent : ℚ := 4/100 + 11/10000 + (3000 / 1000000)
  total_all_in / (1 - selling_percent)

/-- C1 counterexample: at `price = 0`, the MLS branch of
`calculate_seller_net` does not satisfy the claimed formula with the flat
prep-cost figure `25000`: the code's prep-cost sum
`8000+6000+1500+5000+3000+1000` is `24500`, so the net at price `0` is
`-28933`, not the claimed `-29433`. -/
theorem c1_counterexample :
    (calculate_seller_net 0 true).net
      ≠ 0 - (0 * (3/100) + 0 * (2/100) + 25000 + 2933 + 0 * (11/10000) + 1500) := by
  simp only [calculate_seller_net]
  norm_num

/-- C1 amended: for every `price ≥ 0`, the MLS branch nets
`price - (price*0.03 + price*0.02 + 24500 + 2933 + price*0.0011 + 1500)`
(prep costs are `24500`, not `25000`), the non-MLS branch nets
`price - (price*0.03 + price*0.0011 + 1500)`, and in both branches the
returned record satisfies `net = price - total_costs` exactly. -/
theorem c1_seller_net_formulas (price : ℚ) (_hp : 0 ≤ price) :
    (calculate_seller_net price true).net
        = price - (price * (3/100) + price * (2/100) + 24500 + 2933
            + price * (11/10000) + 1500)
      ∧ (calculate_seller_net price false).net
        = price - (price * (3/100) + price * (11/10000) + 1500)
      ∧ (∀ is_mls : Bool, (calculate_seller_net price is_mls).net
          = price - (calculate_seller_net price is_mls).total_costs) := by
  refine ⟨?_, ?_, ?_⟩
  · simp only [calculate_seller_net]
    norm_num
  · simp only [calculate_seller_net]
    norm_num
  · intro is_mls
    cases is_mls <;> simp [calculate_seller_net]

/-- C1 witness: the amended formulas evaluated at the concrete price
`950000`. -/
theorem c1_seller_net_formulas_witness :
    (calculate_seller_net 950000 true).net
        = 950000 - (950000 * (3/100) + 950000 * (2/100) + 24500 + 2933
            + 950000 * (11/10000) + 1500)
      ∧ (calculate_seller_net 950000 false).net
        = 950000 - (950000 * (3/100) + 950000 * (11/10000) + 1500) :=
  ⟨(c1_seller_net_formulas 950000 (by norm_num)).1,
   (c1_seller_net_formulas 950000 (by norm_num)).2.1⟩

/-- C2: when the buyer-cost record has `total_cash = 0`,
`calculate_flip_profit` surfaces the division-by-zero error condition
instead of producing a numeric result (and hence never propagates an
infinite or NaN value). -/
theorem c2_flip_profit_div_by_zero (b : BuyerCostResult) (s : ℚ)
    (h : b.total_cash = 0) :
    calculate_flip_profit b s = Except.error CalcError.divisionByZero := by
  simp [calculate_flip_profit, h]

/-- C2 witness: the all-zero buyer-cost record has `total_cash = 0` and the
flip computation on it errors out. -/
theorem c2_flip_profit_div_by_zero_witness :
    calculate_flip_profit ⟨0, 0, 0, 0, 0, 0, 0, 0, 0, 0⟩ 1100000
      = Except.error CalcError.divisionByZero :=
  c2_flip_profit_div_by_zero ⟨0, 0, 0, 0, 0, 0, 0, 0, 0, 0⟩ 1100000 rfl

/-- C3: for every valid buyer input, the returned record satisfies
`down_payment + loan_amount = purchase_price` exactly. -/
theorem c3_down_payment_plus_loan (purchase_price down_pct interest_rate
    remodel_cost months : ℚ) (_h1 : 0 ≤ purchase_price)
    (_h2 : 0 ≤ down_pct) (_h3 : down_pct ≤ 100) (_h4 : 0 ≤ interest_rate)
    (_h5 : 0 ≤ remodel_cost) (_h6 : 0 < months) :
    (calculate_buyer_costs purchase_price down_pct interest_rate
        remodel_cost months).down_payment
      + (calculate_buyer_costs purchase_price down_pct interest_rate
          remodel_cost months).loan_amount
      = purchase_price := by
  simp only [calculate_buyer_costs]
  ring

/-- C3 witness: the identity evaluated at the concrete scenario input
`(900000, 10, 6, 100000, 4)`. -/
theorem c3_down_payment_plus_loan_witness :
    (calculate_buyer_costs 900000 10 6 100000 4).down_payment
      + (calculate_buyer_costs 900000 10 6 100000 4).loan_amount
      = 900000 :=
  c3_down_payment_plus_loan 900000 10 6 100000 4 (by norm_num) (by norm_num)
    (by norm_num) (by norm_num) (by norm_num) (by norm_num)

/-- C4: for every `price ≥ 0`, the MLS-listed branch never nets more than
the direct-sale branch of `calculate_seller_net` at the same gross price. -/
theorem c4_mls_nets_at_most_direct (price : ℚ) (hp : 0 ≤ price) :
    (calculate_seller_net price true).net ≤ (calculate_seller_net price false).net := by
  simp only [calculate_seller_net]
  norm_num
  nlinarith

/-- C4 witness: the inequality evaluated at the concrete price `950000`. -/
theorem c4_mls_nets_at_most_direct_witness :
    (calculate_seller_net 950000 true).net ≤ (calculate_seller_net 950000 false).net :=
  c4_mls_nets_at_most_direct 950000 (by norm_num)

/-- C5: the concrete scenario `purchasePrice=900000, downPaymentPercent=10,
rate=6, remodelCost=100000, holdingMonths=4` yields exactly the documented
buyer-cost record, and flipping it at `salePrice=1100000` yields
`commission=44000, transferFees=4210, netProceeds=241790, profit=-9678`
with ROI within `0.01` of `-3.85` percent. -/
theorem c5_concrete_scenario :
    calculate_buyer_costs 900000 10 6 100000 4
      = { purchase_price := 900000, down_payment := 90000, loan_amount := 810000,
          closing_costs := 12400, seller_agent := 27000, cash_to_acquire := 129400,
          interest := 16200, holding_costs := 22068, remodel_cost := 100000,
          total_cash := 251468 }
    ∧ ∃ r, calculate_flip_profit (calculate_buyer_costs 900000 10 6 100000 4) 1100000
          = Except.ok r
        ∧ r.commission = 44000 ∧ r.transfer_fees = 4210 ∧ r.net_proceeds = 241790
        ∧ r.profit = -9678 ∧ |r.roi - (-385/100)| < 1/100 := by
  constructor
  · simp only [calculate_buyer_costs]
    norm_num
  · refine ⟨{ sell_price := 1100000, commission := 44000, transfer_fees := 4210,
              net_proceeds := 241790, profit := -9678, roi := -9678 / 251468 * 100 },
        ?_, rfl, rfl, rfl, rfl, ?_⟩
    · simp only [calculate_flip_profit, calculate_buyer_costs]
      norm_num
    · rw [abs_lt]
      norm_num

/-- C6: for every buyer-cost record with positive `total_cash`, flipping at
the breakeven price succeeds and the resulting profit is exactly
`0.003 * (breakeven - 1000000)` — the documented fixed-fee approximation
residual, which vanishes precisely when the breakeven price equals the
reference price `1000000`. -/
theorem c6_breakeven_roundtrip (b : BuyerCostResult) (h : 0 < b.total_cash) :
    ∃ r, calculate_flip_profit b (breakeven_price b) = Except.ok r
      ∧ r.profit = (3/1000) * (breakeven_price b - 1000000)
      ∧ (breakeven_price b = 1000000 → r.profit = 0) := by
  have hne : b.total_cash ≠ 0 := ne_of_gt h
  have hkey : breakeven_price b - breakeven_price b * (4/100)
      - (breakeven_price b * (11/10000) + 3000) - b.loan_amount - b.total_cash
      = (3/1000) * (breakeven_price b - 1000000) := by
    simp only [breakeven_price]
    field_simp
    ring
  refine ⟨{ sell_price := breakeven_price b
            commission := breakeven_price b * (4/100)
            transfer_fees := breakeven_price b * (11/10000) + 3000
            net_proceeds := breakeven_price b - breakeven_price b * (4/100)
              - (breakeven_price b * (11/10000) + 3000) - b.loan_amount
            profit := breakeven_price b - breakeven_price b * (4/100)
              - (breakeven_price b * (11/10000) + 3000) - b.loan_amount - b.total_cash
            roi := (breakeven_price b - breakeven_price b * (4/100)
              - (breakeven_price b * (11/10000) + 3000) - b.loan_amount - b.total_cash)
              / b.total_cash * 100 }, ?_, hkey, ?_⟩
  · simp [calculate_flip_profit, hne]
  · intro h6
    rw [hkey, h6]
    ring

/-- C6 witness: the round-trip applied to the concrete buyer-cost record of
the documented scenario, whose `total_cash` is the positive `251468`. -/
theorem c6_breakeven_roundtrip_witness :
    ∃ r, calculate_flip_profit (calculate_buyer_costs 900000 10 6 100000 4)
          (breakeven_price (calculate_buyer_costs 900000 10 6 100000 4))
        = Except.ok r
      ∧ r.profit = (3/1000)
          * (breakeven_price (calculate_buyer_costs 900000 10 6 100000 4) - 1000000) :=
  match c6_breakeven_roundtrip (calculate_buyer_costs 900000 10 6 100000 4)
      (by simp only [calculate_buyer_costs]; norm_num) with
  | ⟨r, h1, h2, _⟩ => ⟨r, h1, h2⟩

/-- C7 counterexample: at the out-of-domain input `price = -100`,
`calculate_seller_net` does not reject: it computes and returns a full
numeric result record (there is no validation or error path in the
function), contradicting the claim that inputs outside the stated domain
surface an InvalidInput error before computing. -/
theorem c7_counterexample :
    calculate_seller_net (-100) true
      = { price := -100, listing_agent := -3, buyer_agent := -2, prep_costs := 24500,
          holding_costs := 2933, transaction_costs := 149989/100,
          total_costs := 2892789/100, net := -2902789/100 } := by
  simp only [calculate_seller_net]
  norm_num

/-- C7 amended: the calculator functions perform no input validation at
all: on any input outside the stated domain (negative price,
down-payment percent outside `[0,100]`, non-positive holding months) they
neither reject nor clamp, but compute the very same arithmetic formulas;
domain enforcement is left entirely to the caller (the UI widgets). -/
theorem c7_no_input_validation (price d r c m : ℚ)
    (_h : price < 0 ∨ d < 0 ∨ 100 < d ∨ m ≤ 0) :
    (calculate_seller_net price true).net
        = price - (calculate_seller_net price true).total_costs
    ∧ (calculate_buyer_costs price d r c m).down_payment = price * (d / 100)
    ∧ (calculate_buyer_costs price d r c m).loan_amount = price * (1 - d / 100)
    ∧ (calculate_buyer_costs price d r c m).holding_costs
        = (calculate_buyer_costs price d r c m).interest + 1467 * m := by
  refine ⟨rfl, rfl, rfl, ?_⟩
  simp only [calculate_buyer_costs]
  ring

/-- C7 witness: the amended no-validation behaviour evaluated at the
concrete out-of-domain input `price = -100`, `d = 150`, `m = -1`. -/
theorem c7_no_input_validation_witness :
    (calculate_seller_net (-100) true).net
        = -100 - (calculate_seller_net (-100) true).total_costs
    ∧ (calculate_buyer_costs (-100) 150 6 0 (-1)).down_payment
        = -100 * (150 / 100) :=
  ⟨(c7_no_input_validation (-100) 150 6 0 (-1) (Or.inl (by norm_num))).1,
   (c7_no_input_validation (-100) 150 6 0 (-1) (Or.inl (by norm_num))).2.1⟩

/-- C8 counterexample: the claim's listed recognized default
`mlsPrepCosts = 25000` is not the figure the code uses: at the concrete
call `calculate_seller_net 0 true` the prep-cost figure is `24500`
(the code's literal sum `8000+6000+1500+5000+3000+1000`). -/
theorem c8_counterexample :
    (calculate_seller_net 0 true).prep_costs = 24500 ∧ (24500 : ℚ) ≠ 25000 := by
  constructor
  · simp only [calculate_seller_net]
    norm_num
  · norm_num

/-- C8 amended: the monetary constants are hard-coded literals in the
calculator bodies, not caller-overridable configuration; their actual
values are listingAgentRate `0.03`, buyerAgentRate `0.02`, mlsPrepCosts
`24500` (not `25000`), mlsHoldingCosts `2933`, transferTaxRate `0.0011`,
escrowFee `1500`, loanOriginationRate `0.01`, buyerClosingFixedFees
`4300`, sellerAgentRateAtAcquisition `0.03`, monthlyHoldingFixed `1467`,
resaleCommissionRate `0.04`, resaleTransferFixedFee `3000`; the sole
caller-suppliable parameter among them is the holding months, with
default `4`. -/
theorem c8_hardcoded_constants (p d r c m s : ℚ) (is_mls : Bool)
    (b : BuyerCostResult) (h : b.total_cash ≠ 0) :
    (calculate_seller_net p is_mls).listing_agent = p * (3/100)
    ∧ (calculate_seller_net p true).buyer_agent = p * (2/100)
    ∧ (calculate_seller_net p true).prep_costs = 24500
    ∧ (calculate_seller_net p true).holding_costs = 2933
    ∧ (calculate_seller_net p is_mls).transaction_costs = p * (11/10000) + 1500
    ∧ (calculate_buyer_costs p d r c m).closing_costs
        = (calculate_buyer_costs p d r c m).loan_amount * (1/100) + 4300
    ∧ (calculate_buyer_costs p d r c m).seller_agent = p * (3/100)
    ∧ (calculate_buyer_costs p d r c m).holding_costs
        = (calculate_buyer_costs p d r c m).interest + 1467 * m
    ∧ calculate_buyer_costs p d r c = calculate_buyer_costs p d r c 4
    ∧ ∃ fr, calculate_flip_profit b s = Except.ok fr
        ∧ fr.commission = s * (4/100)
        ∧ fr.transfer_fees = s * (11/10000) + 3000 := by
  refine ⟨rfl, ?_, ?_, ?_, rfl, ?_, rfl, ?_, rfl, ?_⟩
  · simp [calculate_seller_net]
  · simp only [calculate_seller_net]
    norm_num
  · simp only [calculate_seller_net]
    norm_num
  · simp only [calculate_buyer_costs]
    ring
  · simp only [calculate_buyer_costs]
    ring
  · have hflip : calculate_flip_profit b s = Except.ok
        { sell_price := s
          commission := s * (4/100)
          transfer_fees := s * (11/10000) + 3000
          net_proceeds := s - s * (4/100) - (s * (11/10000) + 3000) - b.loan_amount
          profit := s - s * (4/100) - (s * (11/10000) + 3000) - b.loan_amount
            - b.total_cash
          roi := (s - s * (4/100) - (s * (11/10000) + 3000) - b.loan_amount
            - b.total_cash) / b.total_cash * 100 } := by
      simp [calculate_flip_profit, h]
    exact ⟨_, hflip, rfl, rfl⟩

/-- C8 witness: the hard-coded constants observed at the concrete inputs of
the documented scenario. -/
theorem c8_hardcoded_constants_witness :
    (calculate_seller_net 950000 true).prep_costs = 24500
    ∧ (calculate_buyer_costs 900000 10 6 100000 4).seller_agent
        = 900000 * (3/100) :=
  ⟨(c8_hardcoded_constants 950000 10 6 100000 4 1100000 true
      ⟨900000, 90000, 810000, 12400, 27000, 129400, 16200, 22068, 100000, 251468⟩
      (by norm_num)).2.2.1,
   (c8_hardcoded_constants 900000 10 6 100000 4 1100000 true
      ⟨900000, 90000, 810000, 12400, 27000, 129400, 16200, 22068, 100000, 251468⟩
      (by norm_num)).2.2.2.2.2.2.1⟩

/-- C9: the calculators of the embedding are total deterministic functions
(purity and determinism hold by construction: each is a plain function
from an input record to an output record, touching no external state);
the only reachable error branch in the whole core is the
division-by-zero branch of `calculate_flip_profit`, taken exactly when
`total_cash = 0`: every other call returns a result. -/
theorem c9_total_single_error_branch (b : BuyerCostResult) (s : ℚ) :
    (b.total_cash = 0
        ∧ calculate_flip_profit b s = Except.error CalcError.divisionByZero)
    ∨ (b.total_cash ≠ 0 ∧ ∃ r, calculate_flip_profit b s = Except.ok r) := by
  by_cases h : b.total_cash = 0
  · exact Or.inl ⟨h, by simp [calculate_flip_profit, h]⟩
  · refine Or.inr ⟨h, ?_⟩
    simp only [calculate_flip_profit, if_neg h]
    exact ⟨_, rfl⟩

/-- C10: `calculate_flip_profit` reads only the `loan_amount` and
`total_cash` fields of its buyer-cost argument: two records agreeing on
those two fields produce identical flip results at every sale price. -/
theorem c10_flip_depends_only_on_loan_and_cash (b1 b2 : BuyerCostResult) (s : ℚ)
    (hl : b1.loan_amount = b2.loan_amount) (hc : b1.total_cash = b2.total_cash) :
    calculate_flip_profit b1 s = calculate_flip_profit b2 s := by
  simp only [calculate_flip_profit, hl, hc]

/-- C10 witness: two buyer-cost records that differ in every field except
`loan_amount` and `total_cash` yield the same flip result. -/
theorem c10_flip_depends_only_on_loan_and_cash_witness :
    calculate_flip_profit ⟨1, 2, 810000, 3, 4, 5, 6, 7, 8, 251468⟩ 1100000
      = calculate_flip_profit ⟨9, 8, 810000, 7, 6, 5, 4, 3, 2, 251468⟩ 1100000 :=
  c10_flip_depends_only_on_loan_and_cash
    ⟨1, 2, 810000, 3, 4, 5, 6, 7, 8, 251468⟩
    ⟨9, 8, 810000, 7, 6, 5, 4, 3, 2, 251468⟩ 1100000 rfl rfl
